import Mathlib

/-!
Shallow embedding of the Vinted deal-alert bot's resilient API client and
token/session lifecycle (checkout failure classification, checkout URL
parsing, bot-block detection, offer endpoint fallback, session cookie jar,
and the per-user token service state machine), together with proofs of the
specification claims about them.

JavaScript primitives (`String.prototype.includes`, `trim`, `toLowerCase`,
regex status extraction, `Map` insertion-order semantics) are modelled
explicitly below; each model states the fragment of the builtin it covers.
-/

/-- Model of the JS whitespace test used by `String.prototype.trim`
(ASCII fragment; the source only ever trims ASCII text). -/
def isJsWhitespace (c : Char) : Bool :=
  c == ' ' || c == '\t' || c == '\n' || c == '\r' || c == '\x0b' || c == '\x0c'

/-- Model of `String.prototype.trim`: drop leading and trailing whitespace. -/
def jsTrim (s : String) : String :=
  ⟨(s.data.dropWhile isJsWhitespace).reverse.dropWhile isJsWhitespace |>.reverse⟩

/-- Model of `String.prototype.toLowerCase`, ASCII fragment (every cased
character the source compares against is ASCII). -/
def lowerChar (c : Char) : Char :=
  if 'A' ≤ c && c ≤ 'Z' then Char.ofNat (c.toNat + 32) else c

/-- Lowercase an entire string (model of `toLowerCase`). -/
def jsToLower (s : String) : String := ⟨s.data.map lowerChar⟩

/-- Does `pat` occur at the start of `l`? (Helper for substring search.) -/
def startsWithChars : List Char → List Char → Bool
  | [], _ => true
  | _ :: _, [] => false
  | c :: cs, d :: ds => c == d && startsWithChars cs ds

/-- Does `pat` occur anywhere inside `hay`? -/
def hasInfixChars (pat : List Char) : List Char → Bool
  | [] => startsWithChars pat []
  | c :: rest => startsWithChars pat (c :: rest) || hasInfixChars pat rest

/-- Model of `String.prototype.includes`. -/
def jsIncludes (s pat : String) : Bool := hasInfixChars pat.data s.data

/-- Numeric value of an ASCII digit. -/
def digitVal (c : Char) : Nat := c.toNat - 48

/-- Model of `message.match(/\((\d{3})\)/)` followed by `parseInt`: scan for
the first position holding a parenthesized three-digit group and return its
value (`extractStatusCode` in the checkout classification module). -/
def scanStatusCode : List Char → Option Nat
  | '(' :: d1 :: d2 :: d3 :: ')' :: rest =>
    if d1.isDigit && d2.isDigit && d3.isDigit then
      some (100 * digitVal d1 + 10 * digitVal d2 + digitVal d3)
    else
      scanStatusCode (d1 :: d2 :: d3 :: ')' :: rest)
  | _ :: rest => scanStatusCode rest
  | [] => none

/-- `extractStatusCode` from the checkout classification module. -/
def extractStatusCode (message : String) : Option Nat :=
  scanStatusCode message.data

/-- Model of the composition `normalize('NFKD')` followed by
`replace(/\p\x7bM\x7d/gu, '')` on a single character: Latin-1 accented
letters decompose into their base letter plus a combining mark, which the
replacement then strips, so the net effect maps them to the base letter.
Covers the Latin-1 fragment (all the source's keyword probes are ASCII or
Latin-1); other characters are untouched. -/
def stripMarkChar (c : Char) : Char :=
  if c ∈ ['à', 'á', 'â', 'ã', 'ä', 'å'] then 'a'
  else if c == 'ç' then 'c'
  else if c ∈ ['è', 'é', 'ê', 'ë'] then 'e'
  else if c ∈ ['ì', 'í', 'î', 'ï'] then 'i'
  else if c == 'ñ' then 'n'
  else if c ∈ ['ò', 'ó', 'ô', 'õ', 'ö'] then 'o'
  else if c ∈ ['ù', 'ú', 'û', 'ü'] then 'u'
  else if c ∈ ['ý', 'ÿ'] then 'y'
  else c

/-- `normalizeForMatch` from the checkout classification module:
lowercase, NFKD-decompose and drop combining marks. -/
def normalizeForMatch (value : String) : String :=
  ⟨(jsToLower value).data.map stripMarkChar⟩

/-- `CheckoutFailureStatus` from the checkout classification module. -/
inductive CheckoutFailureStatus where
  | blocked
  | access_denied
  | invalid_pickup_point
  | failed
deriving DecidableEq, Repr

/-- The `hasAccessDeniedHint` probe of `classifyCheckoutErrorMessage`. -/
def hasAccessDeniedHint (message : String) : Bool :=
  let lower := jsToLower message
  let normalized := normalizeForMatch message
  jsIncludes lower "\"message_code\":\"access_denied\"" ||
  jsIncludes lower "message_code\":\"access_denied" ||
  jsIncludes lower "message_code=access_denied" ||
  jsIncludes lower "access_denied" ||
  jsIncludes lower "\"code\":106" ||
  jsIncludes lower "access denied" ||
  jsIncludes normalized "acces refuse"

/-- The status condition guarding the access-denied branch of
`classifyCheckoutErrorMessage`: 401, 403 or no status at all. -/
def accessDeniedStatusOk (statusCode : Option Nat) : Bool :=
  statusCode == some 401 || statusCode == some 403 || statusCode == none

/-- The blocked/anti-bot keyword probe of `classifyCheckoutErrorMessage`. -/
def hasBlockedKeyword (message : String) : Bool :=
  let lower := jsToLower message
  jsIncludes lower "blockiert" || jsIncludes lower "cloudflare" ||
    jsIncludes lower "captcha" || jsIncludes lower "just a moment"

/-- The `hasPickupHint` probe of `classifyCheckoutErrorMessage`. -/
def hasPickupHint (message : String) : Bool :=
  let lower := jsToLower message
  jsIncludes lower "pickup" || jsIncludes lower "abholpunkt" ||
    jsIncludes lower "relay" || jsIncludes lower "parcel"

/-- The status condition of the first pickup branch of
`classifyCheckoutErrorMessage`. -/
def pickupStatusHit (statusCode : Option Nat) : Bool :=
  statusCode == some 400 || statusCode == some 404 || statusCode == some 422

/-- `classifyCheckoutErrorMessage` from the checkout classification module,
branch for branch (including its two separate pickup branches). -/
def classifyCheckoutErrorMessage (message : String) : CheckoutFailureStatus :=
  let statusCode := extractStatusCode message
  if hasAccessDeniedHint message && accessDeniedStatusOk statusCode then
    .access_denied
  else if hasBlockedKeyword message || statusCode == some 403 then
    .blocked
  else if hasPickupHint message && pickupStatusHit statusCode then
    .invalid_pickup_point
  else if hasPickupHint message then
    .invalid_pickup_point
  else
    .failed

/-- The classification exactly as claim C1 words it: access-denied hint with
status 401/403/absent, else blocked keywords or status 403, else a pickup
hint (with no status condition), else failed. -/
def classifySpecC1 (message : String) : CheckoutFailureStatus :=
  let statusCode := extractStatusCode message
  if hasAccessDeniedHint message && accessDeniedStatusOk statusCode then
    .access_denied
  else if hasBlockedKeyword message || statusCode == some 403 then
    .blocked
  else if hasPickupHint message then
    .invalid_pickup_point
  else
    .failed

/-- JSON values as the client sees them after `JSON.parse`. Numbers are
modelled as integers (every numeric field the client probes is an id,
status code or timestamp); object fields keep insertion order, and keys
are unique as produced by `JSON.parse`. -/
inductive Json where
  | null
  | bool (b : Bool)
  | num (n : Int)
  | str (s : String)
  | arr (elems : List Json)
  | obj (fields : List (String × Json))
deriving Repr, BEq

/-- Model of JS optional property access `value?.key`: `undefined` unless
`value` is a plain object carrying the key. -/
def jget : Option Json → String → Option Json
  | some (.obj fields), key => (fields.find? (fun f => f.fst == key)).map (·.snd)
  | _, _ => none

/-- Model of JS optional index access `value?.[i]`. -/
def jindex : Option Json → Nat → Option Json
  | some (.arr elems), i => elems.get? i
  | _, _ => none

/-- `typeof value === 'string'` probe. -/
def jstr : Option Json → Option String
  | some (.str s) => some s
  | _ => none

/-- `typeof value === 'boolean'` probe. -/
def jbool : Option Json → Option Bool
  | some (.bool b) => some b
  | _ => none

/-- First `some` among a list of probes (models a JS chain of
early returns / `??` fallbacks). -/
def firstSome : List (Option α) → Option α
  | [] => none
  | some a :: _ => some a
  | none :: rest => firstSome rest

/-- Decimal integer parsing, the fragment of JS `BigInt(string)` the
payloads exercise: optional leading minus then one or more ASCII digits. -/
def parseDecIntChars : List Char → Option Int
  | [] => none
  | '-' :: ds =>
    if ds ≠ [] && ds.all Char.isDigit then
      some (-(ds.foldl (fun acc c => 10 * acc + (digitVal c : Int)) 0))
    else none
  | ds =>
    if ds.all Char.isDigit then
      some (ds.foldl (fun acc c => 10 * acc + (digitVal c : Int)) 0)
    else none

/-- `parseBigintCandidate` from the client: numbers pass through (all
modelled numbers are integers), nonempty trimmed strings are parsed as
integers, everything else is rejected. -/
def parseBigintCandidate : Option Json → Option Int
  | some (.num n) => some n
  | some (.str s) =>
    let trimmed := jsTrim s
    if trimmed.data = [] then none else parseDecIntChars trimmed.data
  | _ => none

/-- Key test for the explicit purchase-id keys in `findNestedPurchaseId`. -/
def isPurchaseIdKey (k : String) : Bool :=
  k == "purchase_id" || k == "purchaseid" || k == "checkout_id" || k == "checkoutid"

/-- `findNestedPurchaseId` from the client: bounded-depth search for a
purchase id. The JS `depth` counter admits depths 6 down to 0, i.e. seven
levels, modelled as fuel 7; the JS `seen` set only guards against cyclic
references, which `JSON.parse` output (a tree) never has, so it is omitted. -/
def findNestedPurchaseId : Nat → Option String → Json → Option Int
  | 0, _, _ => none
  | fuel + 1, parentKey, .arr elems =>
    firstSome (elems.map (fun e => findNestedPurchaseId fuel parentKey e))
  | fuel + 1, parentKey, .obj fields =>
    firstSome (fields.map (fun f =>
      let normalizedKey := jsToLower f.fst
      (if isPurchaseIdKey normalizedKey then parseBigintCandidate (some f.snd) else none) <|>
      (if normalizedKey == "id" &&
          (parentKey == some "purchase" || parentKey == some "checkout") then
        parseBigintCandidate (some f.snd)
      else none) <|>
      findNestedPurchaseId fuel (some normalizedKey) f.snd))
  | _ + 1, _, _ => none

/-- `extractPurchaseIdFromCheckoutPayload` from the client: the `??`
cascade over direct fields, then the nested search, then a bare `id`. -/
def extractPurchaseIdFromCheckoutPayload (payload : Json) : Option Int :=
  let raw := some payload
  parseBigintCandidate (jget (jget raw "checkout") "id") <|>
  parseBigintCandidate (jget (jget raw "checkout") "purchase_id") <|>
  parseBigintCandidate (jget (jget (jget raw "checkout") "purchase") "id") <|>
  parseBigintCandidate (jget raw "checkout_id") <|>
  parseBigintCandidate (jget raw "purchase_id") <|>
  parseBigintCandidate (jget (jget raw "purchase") "id") <|>
  parseBigintCandidate (jget (jget raw "purchase") "purchase_id") <|>
  findNestedPurchaseId 7 none payload <|>
  parseBigintCandidate (jget raw "id")

/-- `looksLikeCheckoutUrl` from the client. -/
def looksLikeCheckoutUrl (value : String) : Bool :=
  let lower := jsToLower value
  jsIncludes lower "/checkout" || jsIncludes lower "purchase_id="

/-- Key test for the URL-bearing keys in `findNestedCheckoutUrl`. -/
def isCheckoutUrlKey (k : String) : Bool :=
  k == "checkout_url" || k == "checkouturl" || k == "redirect_url" ||
  k == "redirecturl" || k == "payment_url" || k == "paymenturl" ||
  k == "web_url" || k == "weburl" || k == "checkout_link" || k == "checkoutlink"

/-- `findNestedCheckoutUrl` from the client: bounded-depth search for a
checkout-looking URL (fuel 7 models JS depths 6..0; the cyclic-reference
`seen` set is omitted as in `findNestedPurchaseId`). -/
def findNestedCheckoutUrl : Nat → Json → Option String
  | 0, _ => none
  | _ + 1, .str s =>
    let trimmed := jsTrim s
    if trimmed.data ≠ [] && looksLikeCheckoutUrl trimmed then some trimmed else none
  | fuel + 1, .arr elems =>
    firstSome (elems.map (fun e => findNestedCheckoutUrl fuel e))
  | fuel + 1, .obj fields =>
    firstSome (fields.map (fun f =>
      let normalizedKey := jsToLower f.fst
      match f.snd with
      | .str s =>
        let trimmed := jsTrim s
        if trimmed.data = [] then none
        else if isCheckoutUrlKey normalizedKey then some trimmed
        else if normalizedKey == "url" && looksLikeCheckoutUrl trimmed then some trimmed
        else findNestedCheckoutUrl fuel (.str s)
      | other => findNestedCheckoutUrl fuel other))
  | _ + 1, _ => none

/-- Characters we allow in an already-normalized absolute URL: no
whitespace, no uppercase scheme/host handling needed, nothing the WHATWG
URL serializer would re-encode. -/
def isSafeUrlChar (c : Char) : Bool :=
  c.isLower || c.isDigit || c == '-' || c == '_' || c == '.' || c == '~' ||
  c == '/' || c == '?' || c == '=' || c == '&' || c == ':' || c.isUpper

/-- Scheme/host/path shape of an absolute `http(s)` URL: a lowercase
scheme, a nonempty lowercase host, and a path part starting with `/` that
contains no `//` run. -/
def isHttpAbsolutePart (cs : List Char) : Bool :=
  let afterScheme :=
    if startsWithChars "https://".data cs then some (cs.drop 8)
    else if startsWithChars "http://".data cs then some (cs.drop 7)
    else none
  match afterScheme with
  | none => false
  | some rest =>
    let host := rest.takeWhile (fun c => c != '/' && c != '?' && c != '#')
    let tail := rest.drop host.length
    host ≠ [] &&
    host.all (fun c => c.isLower || c.isDigit || c == '-' || c == '.') &&
    tail.head? == some '/' &&
    !hasInfixChars "//".data tail

/-- Is `s` an absolute `http(s)` URL that the WHATWG `URL` constructor
parses and re-serializes to itself? Requires the scheme/host/path shape
above, only characters the serializer leaves alone (no whitespace, nothing
percent-encoded), and no `.`-segments the serializer would collapse. This
is the fragment of `new URL(input, base).toString()` the checkout-URL
claims exercise. -/
def isNormalizedAbsoluteHttpUrl (s : String) : Bool :=
  isHttpAbsolutePart s.data && s.data.all isSafeUrlChar &&
    !hasInfixChars "/.".data s.data

/-- Model of `new URL(candidate, baseUrl + '/').toString()`, restricted to
the inputs the claims exercise: an already-normalized absolute `http(s)`
URL serializes to itself; anything else is out of the modelled fragment and
yields `none` (the real constructor would resolve relative candidates
against the base — no theorem below relies on that case). -/
def jsUrlResolve (candidate : String) : Option String :=
  if isNormalizedAbsoluteHttpUrl candidate then some candidate else none

/-- `normalizeCheckoutUrlCandidate` from the client. In the unmodelled
branch of `jsUrlResolve` this falls back to the trimmed candidate, which
coincides with the source's `catch` branch for unparsable candidates. -/
def normalizeCheckoutUrlCandidate (candidate : String) : String :=
  let trimmed := jsTrim candidate
  if trimmed.data = [] then trimmed
  else
    match jsUrlResolve trimmed with
    | some u => u
    | none => trimmed

/-- The ordered `directUrlCandidates` list of `parseCheckoutUrl`: the first
entry that is a string with nonempty trim. -/
def directCheckoutUrlCandidate (payload : Json) : Option String :=
  let raw := some payload
  let candidates : List (Option Json) := [
    jget raw "checkout_url",
    jget raw "checkoutUrl",
    jget (jget raw "checkout") "checkout_url",
    jget (jget raw "checkout") "checkoutUrl",
    jget (jget raw "checkout") "url",
    jget (jget raw "checkout") "web_url",
    jget (jget raw "checkout") "webUrl",
    jget (jget raw "purchase") "checkout_url",
    jget (jget raw "purchase") "checkoutUrl",
    jget (jget raw "purchase") "url",
    jget (jget raw "next_step") "url",
    jget (jget raw "nextStep") "url",
    jget (jget raw "payment") "checkout_url",
    jget (jget raw "payment") "checkoutUrl",
    jget (jget raw "payment") "url",
    jget raw "url"]
  firstSome (candidates.map (fun c =>
    match jstr c with
    | some s => if (jsTrim s).data ≠ [] then some s else none
    | none => none))

/-- The synthesized checkout URL built from a discovered purchase id plus
the item id (`URLSearchParams` keeps insertion order and leaves digits and
`-` unencoded). -/
def synthesizedCheckoutUrl (baseUrl : String) (purchaseId itemId : Int) : String :=
  baseUrl ++ "/checkout?purchase_id=" ++ toString purchaseId ++
    "&order_id=" ++ toString itemId ++ "&order_type=transaction"

/-- `parseCheckoutUrl` from the client: direct URL fields first, then the
bounded nested search, then synthesis from a purchase id. -/
def parseCheckoutUrl (baseUrl : String) (itemId : Int) (payload : Json) :
    Option String :=
  match directCheckoutUrlCandidate payload with
  | some c => some (normalizeCheckoutUrlCandidate c)
  | none =>
    match findNestedCheckoutUrl 7 payload with
    | some u => some (normalizeCheckoutUrlCandidate u)
    | none =>
      match extractPurchaseIdFromCheckoutPayload payload with
      | some p => some (synthesizedCheckoutUrl baseUrl p itemId)
      | none => none

/-- Model of JS `parseInt(s, 10)`: skip leading whitespace, optional sign,
then the longest ASCII digit run; `NaN` (here `none`) when no digits. -/
def jsParseInt (s : String) : Option Int :=
  let cs := s.data.dropWhile isJsWhitespace
  let (neg, ds) :=
    match cs with
    | '-' :: rest => (true, rest)
    | '+' :: rest => (false, rest)
    | rest => (false, rest)
  let digits := ds.takeWhile Char.isDigit
  if digits = [] then none
  else
    let v : Int := digits.foldl (fun acc c => 10 * acc + (digitVal c : Int)) 0
    some (if neg then -v else v)

/-- `parseStatusCode` from the client. -/
def parseStatusCode : Option Json → Option Int
  | some (.num n) => some n
  | some (.str s) => jsParseInt s
  | _ => none

/-- `isExplicitPayloadErrorCode` from the client. -/
def isExplicitPayloadErrorCode : Option Json → Bool
  | some (.num n) => n != 0
  | some (.str s) =>
    let normalized := jsToLower (jsTrim s)
    if normalized.data = [] then false
    else if normalized == "0" || normalized == "ok" || normalized == "success" then false
    else
      match jsParseInt normalized with
      | some p => p != 0
      | none => true
  | _ => false

/-- Does the object own the key? Model of `Object.hasOwn` (true even when
the stored value is `null`). -/
def jhasOwn : Json → String → Bool
  | .obj fields, key => fields.any (fun f => f.fst == key)
  | _, _ => false

/-- JSON string escaping as `JSON.stringify` performs it. -/
def jsonEscapeChar (c : Char) : String :=
  if c == '"' then "\\\""
  else if c == '\\' then "\\\\"
  else if c == '\n' then "\\n"
  else if c == '\r' then "\\r"
  else if c == '\t' then "\\t"
  else if c == '\x08' then "\\b"
  else if c == '\x0c' then "\\f"
  else if c.toNat < 32 then
    "\\u00" ++ String.mk [Nat.digitChar (c.toNat / 16), Nat.digitChar (c.toNat % 16)]
  else String.mk [c]

mutual

/-- Model of `JSON.stringify` on parsed-JSON trees (no spaces, insertion
order, integers rendered in decimal). -/
def jsonStringify : Json → String
  | .null => "null"
  | .bool true => "true"
  | .bool false => "false"
  | .num n => toString n
  | .str s => "\"" ++ String.join (s.data.map jsonEscapeChar) ++ "\""
  | .arr elems => "[" ++ String.intercalate "," (jsonStringifyList elems) ++ "]"
  | .obj fields =>
    "\x7b" ++ String.intercalate "," (jsonStringifyFields fields) ++ "\x7d"

/-- `JSON.stringify` over the elements of an array. -/
def jsonStringifyList : List Json → List String
  | [] => []
  | j :: rest => jsonStringify j :: jsonStringifyList rest

/-- `JSON.stringify` over the fields of an object. -/
def jsonStringifyFields : List (String × Json) → List String
  | [] => []
  | f :: rest =>
    ("\"" ++ String.join (f.fst.data.map jsonEscapeChar) ++ "\":" ++
      jsonStringify f.snd) :: jsonStringifyFields rest

end

/-- The `pushMessage` accumulator of `extractErrorsPayloadMessage`: finite
numbers stringify, strings are trimmed, anything else is skipped; empty and
already-seen parts are skipped. -/
def pushMsg (parts : List String) (v : Option Json) : List String :=
  let trimmed :=
    match v with
    | some (.num n) => toString n
    | some (.str s) => jsTrim s
    | _ => ""
  if trimmed.data = [] || parts.contains trimmed then parts else parts ++ [trimmed]

/-- The `pushFromObject` helper of `extractErrorsPayloadMessage`. -/
def pushFromObj (parts : List String) (v : Json) : List String :=
  let o := some v
  pushMsg (pushMsg (pushMsg (pushMsg parts (jget o "message")) (jget o "message_code"))
      (jget o "title")) (jget o "code")

/-- `extractErrorsPayloadMessage` from the client: collect message parts
from an `errors` field, decide whether the 2xx payload is really an error
(`errors`/`error` fields, `status >= 400`, explicit non-zero codes), and if
so produce the normalized failure message. -/
def extractErrorsPayloadMessage (payload : Json) : Option String :=
  match payload with
  | .obj _ =>
    let raw := some payload
    let hasErrorsField := jhasOwn payload "errors"
    let parts : List String :=
      if hasErrorsField then
        match jget raw "errors" with
        | some (.arr entries) =>
          (entries.take 3).foldl
            (fun acc entry =>
              match entry with
              | .str s => pushMsg acc (some (.str s))
              | .obj fs => pushFromObj acc (.obj fs)
              | .arr fs => pushFromObj acc (.arr fs)
              | _ => acc)
            []
        | some (.str s) => pushMsg [] (some (.str s))
        | some (.obj fs) => pushFromObj [] (.obj fs)
        | _ => []
      else []
    let status := parseStatusCode (jget raw "status")
    let hasTopLevelCodeError := isExplicitPayloadErrorCode (jget raw "code")
    let hasTopLevelMessageCodeError := isExplicitPayloadErrorCode (jget raw "message_code")
    let hasErrorField :=
      match jstr (jget raw "error") with
      | some s => (jsTrim s).data ≠ []
      | none => false
    let shouldTreatAsError :=
      hasErrorsField || hasErrorField ||
        (match status with | some st => st ≥ 400 | none => false) ||
        hasTopLevelCodeError || hasTopLevelMessageCodeError
    if !shouldTreatAsError then none
    else
      let parts := pushMsg parts (jget raw "error")
      let parts := pushMsg parts (jget raw "error_description")
      let parts := pushMsg parts (jget raw "message")
      let parts := pushMsg parts (jget raw "message_code")
      let parts := pushMsg parts (jget raw "code")
      let bodyMessage :=
        if parts ≠ [] then String.intercalate " | " parts
        else
          let sliced : String := ⟨(jsonStringify payload).data.take 220⟩
          if sliced.data = [] then "Unknown API error payload." else sliced
      match status with
      | some st => some ("Vinted request failed (" ++ toString st ++ "). " ++ bodyMessage)
      | none => some ("Vinted request failed (payload error). " ++ bodyMessage)
  | _ => none

/-- The single fixed anti-bot failure message (`toVintedBlockedError`, and
the same literal in the token service). -/
def blockedErrorMessage : String :=
  "Vinted hat die Anfrage blockiert (Anti-Bot/Cloudflare). Bitte warte kurz und versuche es später erneut."

/-- `looksLikeBotBlock` from the client: status 403 and either an HTML
content type or an interstitial marker in the body. -/
def looksLikeBotBlock (status : Int) (contentType : Option String) (text : String) : Bool :=
  if status != 403 then false
  else if (match contentType with
      | some ct => jsIncludes (jsToLower ct) "text/html"
      | none => false) then true
  else
    let lower := jsToLower text
    jsIncludes lower "<!doctype html" || jsIncludes lower "<title>vinted</title" ||
      jsIncludes lower "just a moment"

/-- The generic non-2xx failure message both backends build when a response
is not classified as a bot block. -/
def genericRequestFailedMessage (status : Int) (text : String) : String :=
  let body := jsTrim ⟨text.data.take 200⟩
  "Vinted request failed (" ++ toString status ++ "). " ++
    (if body.data = [] then "No body." else body)

/-- The curl backend's handling of a non-2xx response (`fetchJsonViaCurl`):
no content type is available, so classification uses the body alone. -/
def curlNon2xxFailure (status : Int) (text : String) : String :=
  if looksLikeBotBlock status none text then blockedErrorMessage
  else genericRequestFailedMessage status text

/-- The fetch backend's handling of a non-2xx response when the backend is
pinned to `fetch` (`fetchJson`; in `auto` mode the same classification
instead triggers a curl retry first). -/
def fetchNonOkFailure (status : Int) (contentType : Option String) (text : String) : String :=
  if looksLikeBotBlock status contentType text then blockedErrorMessage
  else genericRequestFailedMessage status text

/-- `shouldRetryWithAuthorization` from the client. -/
def shouldRetryWithAuthorization (message : String) : Bool :=
  let lower := jsToLower message
  jsIncludes lower "(401)" || jsIncludes lower "(403)" || jsIncludes lower "access_denied"

/-- `shouldPrimeCheckoutSessionFromError` from the client. -/
def shouldPrimeCheckoutSessionFromError (message : String) : Bool :=
  let lower := jsToLower message
  jsIncludes lower "(403)" || jsIncludes lower "cloudflare" ||
    jsIncludes lower "captcha" || jsIncludes lower "blockiert" ||
    jsIncludes lower "access_denied"

/-- The benign catalog endpoint `buildCheckout` GETs to refresh anti-bot
cookies before its final retry. -/
def checkoutPreflightUrl (baseUrl : String) : String :=
  baseUrl ++ "/api/v2/catalog/items?page=1&per_page=1&order=newest_first"

/-- The success value of `VintedClient.buildCheckout` exactly as the source
declares it: `\x7b checkoutUrl: string | null \x7d` — there is no
challenge-URL field. -/
structure BuildCheckoutValue where
  checkoutUrl : Option String
deriving DecidableEq, Repr

/-- Oracle for the up to three checkout-build POSTs `buildCheckout` can
issue: the cookie-auth attempt, the forced-Authorization retry, and the
post-preflight forced-Authorization retry. -/
structure BuildCheckoutEnv where
  firstAttempt : Except String Json
  authRetry : Except String Json
  primedRetry : Except String Json

/-- What a `buildCheckout` run produced: its result plus the URL of the
priming GET it issued, if any. -/
structure BuildCheckoutOutcome where
  result : Except String BuildCheckoutValue
  preflightUrl : Option String
deriving Repr

/-- `VintedClient.buildCheckout` from the client, with network responses
supplied by the oracle: cookie-auth attempt, auth retry on 401/403/
access-denied, one catalog-preflight priming retry on block-shaped
failures, the `captcha-delivery.com` non-error fallback, payload error
extraction and checkout-URL parsing. -/
def buildCheckoutModel (baseUrl : String) (itemId : Int) (env : BuildCheckoutEnv) :
    BuildCheckoutOutcome :=
  let json1 := env.firstAttempt
  let json2 :=
    match json1 with
    | .error m => if shouldRetryWithAuthorization m then env.authRetry else json1
    | .ok _ => json1
  let primed :=
    match json2 with
    | .error m =>
      if shouldPrimeCheckoutSessionFromError m then
        (env.primedRetry, some (checkoutPreflightUrl baseUrl))
      else (json2, none)
    | .ok _ => (json2, none)
  match primed.fst with
  | .error m =>
    if jsIncludes m "captcha-delivery.com" then
      ⟨.ok ⟨none⟩, primed.snd⟩
    else ⟨.error m, primed.snd⟩
  | .ok payload =>
    match extractErrorsPayloadMessage payload with
    | some e => ⟨.error e, primed.snd⟩
    | none => ⟨.ok ⟨parseCheckoutUrl baseUrl itemId payload⟩, primed.snd⟩

/-- The three offer endpoints, in the order `sendOffer` tries them. -/
def modernOfferUrl (baseUrl : String) (itemId : Int) : String :=
  baseUrl ++ "/api/v2/transactions/" ++ toString itemId ++ "/offer_requests"

/-- Second `sendOffer` endpoint: transaction-scoped offers. -/
def transactionOffersUrl (baseUrl : String) (itemId : Int) : String :=
  baseUrl ++ "/api/v2/transactions/" ++ toString itemId ++ "/offers"

/-- Third `sendOffer` endpoint: the legacy global offers endpoint. -/
def legacyOffersUrl (baseUrl : String) : String := baseUrl ++ "/api/v2/offers"

/-- What a `sendOffer` run produced: its result and the endpoints it
actually requested, in order. -/
structure SendOfferOutcome where
  result : Except String Unit
  attempted : List String
deriving Repr

/-- The blocked/anti-bot signal probe `sendOffer` applies to a lowercased
failure message. -/
def offerBlockSignal (lowerMessage : String) : Bool :=
  jsIncludes lowerMessage "cloudflare" || jsIncludes lowerMessage "captcha" ||
    jsIncludes lowerMessage "blockiert"

/-- The per-endpoint specificity probe of `sendOffer`. -/
def offerLooksMoreSpecific (lowerMessage : String) : Bool :=
  jsIncludes lowerMessage "access_denied" || offerBlockSignal lowerMessage

/-- `VintedClient.sendOffer` from the client, with the outcome of each
endpoint variant supplied by an oracle: try the modern transaction-scoped
`offer_requests` endpoint, then the transaction-scoped `offers` endpoint,
then the legacy global endpoint, returning the first success; when all
three fail, pick the most diagnostically specific error with the source's
exact precedence rules. -/
def sendOfferModel (baseUrl : String) (itemId : Int)
    (modern transactionOffers legacy : Except String Unit) : SendOfferOutcome :=
  match modern with
  | .ok _ => ⟨modern, [modernOfferUrl baseUrl itemId]⟩
  | .error modernErr =>
    match transactionOffers with
    | .ok _ =>
      ⟨transactionOffers, [modernOfferUrl baseUrl itemId, transactionOffersUrl baseUrl itemId]⟩
    | .error transactionErr =>
      let attempted :=
        [modernOfferUrl baseUrl itemId, transactionOffersUrl baseUrl itemId,
          legacyOffersUrl baseUrl]
      match legacy with
      | .ok _ => ⟨legacy, attempted⟩
      | .error legacyErr =>
        let modernMessage := jsToLower modernErr
        let transactionMessage := jsToLower transactionErr
        let legacyMessage := jsToLower legacyErr
        let hasSpecificAccessDeniedSignal :=
          jsIncludes modernMessage "access_denied" ||
            jsIncludes transactionMessage "access_denied" ||
            jsIncludes legacyMessage "access_denied"
        let hasSpecificBlockSignal :=
          offerBlockSignal modernMessage || offerBlockSignal transactionMessage ||
            offerBlockSignal legacyMessage
        let modernLooksMoreSpecific := offerLooksMoreSpecific modernMessage
        let transactionLooksMoreSpecific := offerLooksMoreSpecific transactionMessage
        if modernLooksMoreSpecific && !jsIncludes legacyMessage "access_denied" then
          ⟨.error modernErr, attempted⟩
        else if transactionLooksMoreSpecific && !jsIncludes legacyMessage "access_denied" then
          ⟨.error transactionErr, attempted⟩
        else if hasSpecificAccessDeniedSignal || hasSpecificBlockSignal then
          if modernLooksMoreSpecific then ⟨.error modernErr, attempted⟩
          else if transactionLooksMoreSpecific then ⟨.error transactionErr, attempted⟩
          else ⟨.error legacyErr, attempted⟩
        else ⟨.error legacyErr, attempted⟩

/-- The success value of `VintedClient.toggleFavourite`. -/
structure ToggleFavouriteValue where
  liked : Bool
  known : Bool
deriving DecidableEq, Repr

/-- The ordered boolean-field probe of `toggleFavourite`: the first of the
eight candidate fields that is an actual boolean. -/
def toggleBooleanProbe (payload : Json) : Option Bool :=
  let raw := some payload
  firstSome [
    jbool (jget (jget raw "item") "is_favourite"),
    jbool (jget (jget raw "item") "isFavorite"),
    jbool (jget (jindex (jget raw "user_favourites") 0) "is_favourite"),
    jbool (jget (jindex (jget raw "user_favourites") 0) "isFavorite"),
    jbool (jget raw "is_favourite"),
    jbool (jget raw "isFavorite"),
    jbool (jget raw "favourited"),
    jbool (jget raw "favorited")]

/-- The action-string probe of `toggleFavourite`: the first string among
`action`/`result`/`status`, lowercased. -/
def toggleActionCandidate (payload : Json) : Option String :=
  let raw := some payload
  (firstSome [jstr (jget raw "action"), jstr (jget raw "result"), jstr (jget raw "status")]).map
    jsToLower

/-- How `toggleFavourite` interprets an error-free payload: boolean fields
first, then add/remove keywords in the action string, else the explicit
`liked := false, known := false` fallback (state unknown, not a failure). -/
def interpretToggleFavouritePayload (payload : Json) : ToggleFavouriteValue :=
  match toggleBooleanProbe payload with
  | some b => ⟨b, true⟩
  | none =>
    match toggleActionCandidate payload with
    | some a =>
      if a.data ≠ [] then
        if jsIncludes a "add" || jsIncludes a "favourit" || jsIncludes a "favorit" then
          ⟨true, true⟩
        else if jsIncludes a "remove" || jsIncludes a "unfavourit" ||
            jsIncludes a "unfavorit" then
          ⟨false, true⟩
        else ⟨false, false⟩
      else ⟨false, false⟩
    | none => ⟨false, false⟩

/-- `VintedClient.toggleFavourite` from the client, after the transport has
produced one final JSON result (the auth-retry choreography ahead of it
only selects which response becomes this result): payload-level errors
become failures, everything else is interpreted. -/
def toggleFavouriteModel (response : Except String Json) :
    Except String ToggleFavouriteValue :=
  match response with
  | .error m => .error m
  | .ok payload =>
    match extractErrorsPayloadMessage payload with
    | some e => .error e
    | none => .ok (interpretToggleFavouritePayload payload)

/-- Insertion-ordered association lookup (model of JS `Map.get`). -/
def alookup (m : List (String × α)) (k : String) : Option α :=
  (m.find? (fun p => p.fst == k)).map (·.snd)

/-- Insertion-ordered association update (model of JS `Map.set`: replace in
place, else append). -/
def aset (m : List (String × α)) (k : String) (v : α) : List (String × α) :=
  match m with
  | [] => [(k, v)]
  | (k', v') :: rest => if k' == k then (k, v) :: rest else (k', v') :: aset rest k v

/-- Association removal (model of JS `Map.delete`). -/
def adel (m : List (String × α)) (k : String) : List (String × α) :=
  m.filter (fun p => !(p.fst == k))

/-- Split `cs` around the first occurrence of `pat`. -/
def splitFirstOn (pat : List Char) : List Char → Option (List Char × List Char)
  | [] => if startsWithChars pat [] then some ([], []) else none
  | c :: rest =>
    if startsWithChars pat (c :: rest) then some ([], (c :: rest).drop pat.length)
    else (splitFirstOn pat rest).map (fun p => (c :: p.fst, p.snd))

/-- Model of `new URL(url).hostname.toLowerCase()` (`resolveHostFromUrl`):
the lowercased host between the scheme separator and the first `/`, `?`,
`#` or `:` port separator, with any userinfo stripped; `none` when the URL
has no scheme/authority shape (where the constructor throws). Covers the
`http(s)://host/...` URLs the client builds (no IDNA or IPv6 handling). -/
def jsUrlHost (url : String) : Option String :=
  match splitFirstOn "://".data url.data with
  | none => none
  | some (scheme, rest) =>
    if scheme = [] then none
    else
      let authority := rest.takeWhile (fun c => c != '/' && c != '?' && c != '#')
      if authority = [] then none
      else
        let hostPort := (authority.reverse.takeWhile (fun c => c != '@')).reverse
        let host := hostPort.takeWhile (fun c => c != ':')
        if host = [] then none else some (jsToLower ⟨host⟩)

/-- `DEFAULT_SESSION_SCOPE` from the client. -/
def DEFAULT_SESSION_SCOPE : String := "__global__"

/-- `normalizeSessionScope` from the client: a missing, empty or
whitespace-only scope falls back to the single global scope. -/
def normalizeSessionScope (sessionScope : Option String) : String :=
  match sessionScope with
  | some s => let trimmed := jsTrim s; if trimmed.data ≠ [] then trimmed else DEFAULT_SESSION_SCOPE
  | none => DEFAULT_SESSION_SCOPE

/-- The two-level session-scope → host → per-name store backing both the
cookie jar and the dynamic-header cache. -/
def ScopeHostStore := List (String × List (String × List (String × String)))

/-- `parseCookiePairFromSetCookie` from the client: name/value of the first
`;`-delimited segment, rejecting empty names and `=`-first segments. -/
def parseCookiePairFromSetCookie (setCookieHeader : String) : Option (String × String) :=
  let pairPart := jsTrim ⟨setCookieHeader.data.takeWhile (fun c => c != ';')⟩
  if pairPart.data = [] then none
  else
    match pairPart.data.findIdx? (fun c => c == '=') with
    | none => none
    | some 0 => none
    | some eqIndex =>
      let name := jsTrim ⟨pairPart.data.take eqIndex⟩
      let value := jsTrim ⟨pairPart.data.drop (eqIndex + 1)⟩
      if name.data = [] then none else some (name, value)

/-- `setCookiesInJar` from the client: resolve the host, normalize the
scope, create the per-scope/per-host cookie map on demand, and merge every
parsable `Set-Cookie` pair (empty values delete the cookie). -/
def setCookiesInJar (jar : ScopeHostStore) (url : String) (setCookieHeaders : List String)
    (sessionScope : Option String) : ScopeHostStore :=
  match jsUrlHost url with
  | none => jar
  | some host =>
    if setCookieHeaders = [] then jar
    else
      let scopeKey := normalizeSessionScope sessionScope
      let scopeMap := (alookup jar scopeKey).getD []
      let cookies := (alookup scopeMap host).getD []
      let updated := setCookieHeaders.foldl
        (fun acc headerValue =>
          match parseCookiePairFromSetCookie headerValue with
          | none => acc
          | some (name, value) =>
            if value.data = [] then adel acc name else aset acc name value)
        cookies
      aset jar scopeKey (aset scopeMap host updated)

/-- `serializeCookieHeader` from the client. -/
def serializeCookieHeader (cookies : List (String × String)) : String :=
  String.intercalate "; " (cookies.map (fun p => p.fst ++ "=" ++ p.snd))

/-- `getCookieHeaderFromJar` from the client: the serialized cookies stored
for the request's normalized scope and host, if any. -/
def getCookieHeaderFromJar (jar : ScopeHostStore) (url : String)
    (sessionScope : Option String) : Option String :=
  match jsUrlHost url with
  | none => none
  | some host =>
    let scopeKey := normalizeSessionScope sessionScope
    match alookup jar scopeKey with
    | none => none
    | some scopeMap =>
      match alookup scopeMap host with
      | none => none
      | some cookies =>
        if cookies = [] then none else some (serializeCookieHeader cookies)

/-- `setDynamicHeaderForUrl` from the client: remember a response header
(lowercased name) for the normalized scope and host. -/
def setDynamicHeaderForUrl (cache : ScopeHostStore) (url headerName value : String)
    (sessionScope : Option String) : ScopeHostStore :=
  match jsUrlHost url with
  | none => cache
  | some host =>
    let scopeKey := normalizeSessionScope sessionScope
    let scopeMap := (alookup cache scopeKey).getD []
    let headers := (alookup scopeMap host).getD []
    aset cache scopeKey (aset scopeMap host (aset headers (jsToLower headerName) value))

/-- `getDynamicHeadersForUrl` from the client: the remembered headers for
the normalized scope and host (empty when none). -/
def getDynamicHeadersForUrl (cache : ScopeHostStore) (url : String)
    (sessionScope : Option String) : List (String × String) :=
  match jsUrlHost url with
  | none => []
  | some host =>
    let scopeKey := normalizeSessionScope sessionScope
    match alookup cache scopeKey with
    | none => []
    | some scopeMap => (alookup scopeMap host).getD []

/-- `CachedToken` from the token service. Times are absolute milliseconds. -/
structure CachedToken where
  accessToken : String
  refreshToken : String
  expiresAtMs : Int
  region : String
deriving DecidableEq, Repr

/-- `BlockState` from the token service (`until` rendered as `untilMs`). -/
structure BlockState where
  untilMs : Int
  strikes : Nat
deriving DecidableEq, Repr

/-- `ReauthState` from the token service. -/
structure ReauthState where
  untilMs : Int
deriving DecidableEq, Repr

/-- The token service's module-level maps, as per-user stores. The
in-flight promise map is modelled by whether a refresh promise is currently
installed for the user. -/
structure TokenServiceState where
  cache : String → Option CachedToken
  blocked : String → Option BlockState
  reauthRequired : String → Option ReauthState
  inFlight : String → Bool

/-- Pointwise update of a per-user store. -/
def fset (f : String → Option α) (k : String) (v : Option α) : String → Option α :=
  fun k' => if k' = k then v else f k'

/-- `REAUTH_COOLDOWN_MS` from the token service: 30 minutes. -/
def REAUTH_COOLDOWN_MS : Int := 30 * 60 * 1000

/-- `isBlockedError` from the token service. -/
def isBlockedError (message : String) : Bool :=
  jsIncludes (jsToLower message) "blockiert"

/-- `isInvalidGrantError` from the token service. -/
def isInvalidGrantError (message : String) : Bool :=
  let lower := jsToLower message
  jsIncludes lower "invalid_grant" || jsIncludes lower "authorization grant is invalid"

/-- The `reauthRequiredError` message from the token service. -/
def reauthRequiredMessage : String :=
  "Vinted-Token ist ungültig oder abgelaufen. Führe /setup account mit einem frischen refresh_token_web erneut aus."

/-- The decrypt-failure message from the token service. -/
def decryptFailedMessage : String :=
  "Gespeicherter Refresh-Token konnte nicht entschlüsselt werden. Führe /setup account erneut aus."

/-- The generic refresh-failure message from the token service. -/
def genericRefreshFailedMessage : String :=
  "Vinted-Token konnte nicht erneuert werden. Führe /setup account erneut aus."

/-- The unsupported-region message from `parseRegion`. -/
def unsupportedRegionMessage : String := "Nicht unterstützte Region."

/-- `bumpBackoff` from the token service: strikes capped at 6, delay
`min(30min, 30s * 2^strikes)`, block until `now + delay`. -/
def bumpBackoff (prev : Option BlockState) (now : Int) : BlockState :=
  let strikes := min ((prev.map (·.strikes)).getD 0 + 1) 6
  let delayMs : Nat := min (30 * 60000) (30000 * 2 ^ strikes)
  { strikes := strikes, untilMs := now + (delayMs : Int) }

/-- `clearTokenStateForUser` from the token service. -/
def clearTokenStateForUser (u : String) (s : TokenServiceState) : TokenServiceState :=
  { cache := fset s.cache u none
    blocked := fset s.blocked u none
    reauthRequired := fset s.reauthRequired u none
    inFlight := fun k' => if k' = u then false else s.inFlight k' }

/-- The supported region codes (`REGION_TO_BASE_URL` keys). -/
def isVintedRegion (region : String) : Bool :=
  region ∈ ["de", "at", "fr", "it", "es", "nl", "pl", "cz", "pt"]

/-- The persisted account row the refresh path loads. -/
structure VintedAccount where
  region : String
  encryptedRefreshToken : String
deriving DecidableEq, Repr

/-- The token endpoint's successful response shape. -/
structure VintedTokenResponse where
  accessToken : String
  refreshToken : String
  expiresIn : Int
  createdAt : Int
deriving DecidableEq, Repr

/-- Oracle for the effects the refresh path awaits: the account lookup,
the decryption of the stored refresh token (`none` models a throw), and the
network refresh call's outcome. -/
structure RefreshEnv where
  account : Except String VintedAccount
  decrypted : Option String
  refresh : Except String VintedTokenResponse

/-- Which suspending effects a `getAccessToken` call actually performed. -/
structure RunFlags where
  accountLoaded : Bool
  decryptAttempted : Bool
  refreshCalled : Bool
deriving DecidableEq, Repr

/-- No effect performed. -/
def noFlags : RunFlags := ⟨false, false, false⟩

/-- What a `getAccessToken` call returned. `awaitedExisting` models
returning the promise already in flight for this user (whose value is that
earlier call's outcome). -/
inductive TokenCallResult where
  | ok (t : CachedToken)
  | errMsg (m : String)
  | awaitedExisting
deriving DecidableEq, Repr

/-- Decision of the synchronous entry section of `getAccessTokenForUser`
(fresh cache / active block / active reauth cooldown / in-flight promise /
start a refresh). -/
inductive EntryDecision where
  | useCache (t : CachedToken)
  | failBlocked
  | failReauth
  | awaitExisting
  | startRefresh
deriving DecidableEq, Repr

/-- Entry checks of `getAccessTokenForUser` after the cache, block and
reauth probes all failed: an existing in-flight promise is awaited,
otherwise a refresh starts and its promise is installed in the in-flight
map before the function first suspends. -/
def entryAfterReauth (s : TokenServiceState) (u : String) :
    EntryDecision × TokenServiceState :=
  if s.inFlight u then (.awaitExisting, s)
  else (.startRefresh, { s with inFlight := fun k' => if k' = u then true else s.inFlight k' })

/-- Entry checks of `getAccessTokenForUser` after the cache and block
probes failed: the active-reauth-cooldown fast path. -/
def entryAfterBlocked (s : TokenServiceState) (u : String) (now : Int) :
    EntryDecision × TokenServiceState :=
  match s.reauthRequired u with
  | some reauth =>
    if now < reauth.untilMs then (.failReauth, s)
    else entryAfterReauth s u
  | none => entryAfterReauth s u

/-- Entry checks of `getAccessTokenForUser` after the cache probe failed:
the active-block fast path. -/
def entryAfterCache (s : TokenServiceState) (u : String) (now : Int) :
    EntryDecision × TokenServiceState :=
  match s.blocked u with
  | some block =>
    if now < block.untilMs then (.failBlocked, s)
    else entryAfterBlocked s u now
  | none => entryAfterBlocked s u now

/-- The synchronous entry section of `getAccessTokenForUser`, in source
order: fresh cached token, active block, active reauth cooldown, existing
in-flight promise, else start a refresh. -/
def entryPhase (s : TokenServiceState) (u : String) (now : Int) :
    EntryDecision × TokenServiceState :=
  match s.cache u with
  | some cached =>
    if now < cached.expiresAtMs - 30000 then (.useCache cached, s)
    else entryAfterCache s u now
  | none => entryAfterCache s u now

/-- The refresh promise body of `getAccessTokenForUser` (source lines after
the entry section): load the account, parse its region, decrypt the stored
refresh token, call the refresh endpoint, and apply the success /
blocked / invalid-grant / generic-failure transitions. -/
def refreshBody (u : String) (now : Int) (env : RefreshEnv) (s : TokenServiceState) :
    (Except String CachedToken × TokenServiceState × RunFlags) :=
  match env.account with
  | .error e => (.error e, s, ⟨true, false, false⟩)
  | .ok account =>
    if !isVintedRegion account.region then
      (.error unsupportedRegionMessage, s, ⟨true, false, false⟩)
    else
      match env.decrypted with
      | none => (.error decryptFailedMessage, s, ⟨true, true, false⟩)
      | some _refreshToken =>
        match env.refresh with
        | .error msg =>
          if isBlockedError msg then
            (.error msg,
              { s with blocked := fset s.blocked u (some (bumpBackoff (s.blocked u) now)) },
              ⟨true, true, true⟩)
          else if isInvalidGrantError msg then
            (.error reauthRequiredMessage,
              { s with
                  reauthRequired :=
                    fset s.reauthRequired u (some ⟨now + REAUTH_COOLDOWN_MS⟩)
                  cache := fset s.cache u none
                  blocked := fset s.blocked u none },
              ⟨true, true, true⟩)
          else (.error genericRefreshFailedMessage, s, ⟨true, true, true⟩)
        | .ok refreshed =>
          let expiresAtMs := (refreshed.createdAt + refreshed.expiresIn) * 1000
          let next : CachedToken :=
            { accessToken := refreshed.accessToken
              refreshToken := refreshed.refreshToken
              expiresAtMs := expiresAtMs
              region := account.region }
          (.ok next,
            { s with
                cache := fset s.cache u (some next)
                blocked := fset s.blocked u none
                reauthRequired := fset s.reauthRequired u none },
            ⟨true, true, true⟩)

/-- Outcome of a complete sequential `getAccessTokenForUser` call. -/
structure CallOutcome where
  result : TokenCallResult
  state : TokenServiceState
  flags : RunFlags

/-- `getAccessTokenForUser` run to completion with no interleaved callers:
the entry section, then (only when a refresh starts) the refresh body,
whose promise is removed from the in-flight map in the `finally` block. -/
def getAccessTokenModel (u : String) (now : Int) (env : RefreshEnv)
    (s : TokenServiceState) : CallOutcome :=
  match entryPhase s u now with
  | (.useCache c, s') => ⟨.ok c, s', noFlags⟩
  | (.failBlocked, s') => ⟨.errMsg blockedErrorMessage, s', noFlags⟩
  | (.failReauth, s') => ⟨.errMsg reauthRequiredMessage, s', noFlags⟩
  | (.awaitExisting, s') => ⟨.awaitedExisting, s', noFlags⟩
  | (.startRefresh, s') =>
    let r := refreshBody u now env s'
    ⟨(match r.fst with
      | .ok t => .ok t
      | .error m => .errMsg m),
      { r.snd.fst with inFlight := fun k' => if k' = u then false else r.snd.fst.inFlight k' },
      r.snd.snd⟩

/-- The block state obtained by folding `bumpBackoff` over the times of a
run of consecutive blocked-classified refresh failures (none → first
failure → … → last failure). -/
def blockedStateAfterFailures (failureTimes : List Int) : Option BlockState :=
  failureTimes.foldl (fun acc t => some (bumpBackoff acc t)) none

/-- C1: `classifyCheckoutErrorMessage` is a pure total function applying
exactly the claimed precedence — access-denied hint with status 401/403/
absent, else blocked keyword or status 403, else pickup hint, else failed —
and maps the four example messages to `access_denied`, `blocked`,
`invalid_pickup_point` and `failed` respectively. -/
theorem classifyCheckoutErrorMessage_matches_spec :
    (∀ m, classifyCheckoutErrorMessage m = classifySpecC1 m) ∧
    classifyCheckoutErrorMessage
        "Vinted request failed (403). \"message_code\":\"access_denied\"" =
      .access_denied ∧
    classifyCheckoutErrorMessage
        "Vinted hat die Anfrage blockiert (Anti-Bot/Cloudflare)." = .blocked ∧
    classifyCheckoutErrorMessage "Vinted request failed (422). pickup_point invalid" =
      .invalid_pickup_point ∧
    classifyCheckoutErrorMessage "Vinted request failed (500). Internal server error" =
      .failed := by
  refine ⟨fun m => ?_, by decide, by decide, by decide, by decide⟩
  unfold classifyCheckoutErrorMessage classifySpecC1
  cases h1 : hasAccessDeniedHint m && accessDeniedStatusOk (extractStatusCode m) <;>
    cases h2 : (hasBlockedKeyword m || extractStatusCode m == some 403) <;>
      cases h3 : hasPickupHint m <;>
        cases h4 : pickupStatusHit (extractStatusCode m) <;>
          simp [h1, h2, h3, h4]

/-- A list none of whose elements satisfies `p` survives `dropWhile p`. -/
theorem dropWhile_eq_self_of_all_neg {p : Char → Bool} :
    ∀ l : List Char, (∀ c ∈ l, p c = false) → l.dropWhile p = l := by
  intro l h
  cases l with
  | nil => rfl
  | cons c t =>
    rw [List.dropWhile_cons]
    simp [h c (by simp)]

/-- A string with no JS whitespace is unchanged by `trim`. -/
theorem jsTrim_eq_self_of_no_ws (s : String)
    (h : ∀ c ∈ s.data, isJsWhitespace c = false) : jsTrim s = s := by
  unfold jsTrim
  rw [dropWhile_eq_self_of_all_neg s.data h]
  rw [dropWhile_eq_self_of_all_neg s.data.reverse (by
    intro c hc
    exact h c (List.mem_reverse.mp hc))]
  cases s
  simp

/-- Safe URL characters are not whitespace. -/
theorem isSafeUrlChar_not_ws (c : Char) (h : isSafeUrlChar c = true) :
    isJsWhitespace c = false := by
  by_contra hw
  rw [Bool.not_eq_false] at hw
  simp only [isJsWhitespace, Bool.or_eq_true, beq_iff_eq] at hw
  rcases hw with ((((h1 | h1) | h1) | h1) | h1) | h1 <;> subst h1 <;>
    exact absurd h (by decide)

/-- A normalized absolute URL is nonempty and unchanged by `trim`. -/
theorem normalizedUrl_facts (u : String) (h : isNormalizedAbsoluteHttpUrl u = true) :
    jsTrim u = u ∧ u.data ≠ [] := by
  unfold isNormalizedAbsoluteHttpUrl at h
  simp only [Bool.and_eq_true] at h
  obtain ⟨⟨hshape, hsafe⟩, -⟩ := h
  constructor
  · apply jsTrim_eq_self_of_no_ws
    intro c hc
    exact isSafeUrlChar_not_ws c (by
      rw [List.all_eq_true] at hsafe
      exact hsafe c hc)
  · intro hnil
    rw [hnil] at hshape
    exact absurd hshape (by decide)

/-- C6: checkout-URL extraction round-trips — the payload
`checkout.id = 99887766` with item id 8140069581 and no direct URL field
synthesizes `<baseUrl>/checkout?purchase_id=99887766&order_id=8140069581&order_type=transaction`;
a `checkout_url` field holding a normalized absolute URL containing
`purchase_id` is returned verbatim; and whenever no URL field is found, the
synthesized query parameters are determined by the discovered purchase id
and the item id alone. -/
theorem parseCheckoutUrl_roundtrip :
    (∀ baseUrl,
      parseCheckoutUrl baseUrl 8140069581
          (Json.obj [("checkout", Json.obj [("id", Json.num 99887766)])]) =
        some (baseUrl ++
          "/checkout?purchase_id=99887766&order_id=8140069581&order_type=transaction")) ∧
    (∀ baseUrl itemId u, isNormalizedAbsoluteHttpUrl u = true →
      jsIncludes u "purchase_id" = true →
      parseCheckoutUrl baseUrl itemId (Json.obj [("checkout_url", Json.str u)]) = some u) ∧
    (∀ baseUrl itemId payload p,
      directCheckoutUrlCandidate payload = none →
      findNestedCheckoutUrl 7 payload = none →
      extractPurchaseIdFromCheckoutPayload payload = some p →
      parseCheckoutUrl baseUrl itemId payload =
        some (synthesizedCheckoutUrl baseUrl p itemId)) := by
  refine ⟨fun baseUrl => ?_, fun baseUrl itemId u h1 _h2 => ?_, fun baseUrl itemId payload p hd hn hp => ?_⟩
  · have h : parseCheckoutUrl baseUrl 8140069581
        (Json.obj [("checkout", Json.obj [("id", Json.num 99887766)])]) =
        some (synthesizedCheckoutUrl baseUrl 99887766 8140069581) := rfl
    rw [h]
    unfold synthesizedCheckoutUrl
    simp only [String.append_assoc]
    congr 1
  · obtain ⟨htrim, hne⟩ := normalizedUrl_facts u h1
    have hd : directCheckoutUrlCandidate (Json.obj [("checkout_url", Json.str u)]) =
        some u := by
      unfold directCheckoutUrlCandidate
      simp [jget, jstr, firstSome, htrim, hne]
    unfold parseCheckoutUrl
    rw [hd]
    unfold normalizeCheckoutUrlCandidate jsUrlResolve
    simp [htrim, hne, h1]
  · unfold parseCheckoutUrl
    rw [hd, hn, hp]

/-- Witness for C6 at a concrete verbatim checkout URL. -/
theorem parseCheckoutUrl_roundtrip_witness :
    parseCheckoutUrl "https://www.vinted.de" 1
        (Json.obj [("checkout_url",
          Json.str "https://www.vinted.de/checkout?purchase_id=1")]) =
      some "https://www.vinted.de/checkout?purchase_id=1" :=
  parseCheckoutUrl_roundtrip.2.1 "https://www.vinted.de" 1
    "https://www.vinted.de/checkout?purchase_id=1" (by decide) (by decide)

/-- C5 (code-bug evidence): when every checkout-build attempt fails with a
DataDome message carrying a `captcha-delivery.com` challenge URL,
`buildCheckout` primes via the generic catalog endpoint — not the challenge
URL — and returns a success value whose type has no challenge-URL field at
all (`checkoutUrl` is its only field, here `null`), contradicting the
repository's own tests, which require the challenge URL to be fetched once
and surfaced as `challengeUrl`. -/
theorem buildCheckout_captcha_priming_divergence :
    (buildCheckoutModel "https://www.vinted.nl" 88
        ⟨.error "Vinted request failed (403). \"url\":\"https://geo.captcha-delivery.com/captcha/?cid=challenge-1\"",
          .error "Vinted request failed (403). \"url\":\"https://geo.captcha-delivery.com/captcha/?cid=challenge-1\"",
          .error "Vinted request failed (403). \"url\":\"https://geo.captcha-delivery.com/captcha/?cid=challenge-1\""⟩).result =
      .ok ⟨none⟩ ∧
    (buildCheckoutModel "https://www.vinted.nl" 88
        ⟨.error "Vinted request failed (403). \"url\":\"https://geo.captcha-delivery.com/captcha/?cid=challenge-1\"",
          .error "Vinted request failed (403). \"url\":\"https://geo.captcha-delivery.com/captcha/?cid=challenge-1\"",
          .error "Vinted request failed (403). \"url\":\"https://geo.captcha-delivery.com/captcha/?cid=challenge-1\""⟩).preflightUrl =
      some "https://www.vinted.nl/api/v2/catalog/items?page=1&per_page=1&order=newest_first" ∧
    some "https://www.vinted.nl/api/v2/catalog/items?page=1&per_page=1&order=newest_first" ≠
      some "https://geo.captcha-delivery.com/captcha/?cid=challenge-1" := by
  refine ⟨rfl, rfl, by decide⟩

/-- C7: a transport response is classified as an anti-bot block exactly
when its status is 403 and either its content type mentions `text/html` or
its body carries one of the interstitial markers; every response so
classified maps to the single fixed blocked message, identically in the
fetch backend and the curl backend (which classifies with no content type
available). -/
theorem botBlock_classification_spec :
    (∀ (status : Int) (contentType : Option String) (text : String),
      looksLikeBotBlock status contentType text =
        ((status == 403) &&
          ((match contentType with
            | some ct => jsIncludes (jsToLower ct) "text/html"
            | none => false) ||
            (jsIncludes (jsToLower text) "<!doctype html" ||
              jsIncludes (jsToLower text) "<title>vinted</title" ||
              jsIncludes (jsToLower text) "just a moment")))) ∧
    (∀ (status : Int) (contentType : Option String) (text : String),
      looksLikeBotBlock status contentType text = true →
      fetchNonOkFailure status contentType text = blockedErrorMessage) ∧
    (∀ (status : Int) (text : String),
      looksLikeBotBlock status none text = true →
      curlNon2xxFailure status text = blockedErrorMessage) := by
  refine ⟨fun status contentType text => ?_, fun status ct text h => ?_,
    fun status text h => ?_⟩
  · unfold looksLikeBotBlock
    cases h1 : (status == 403) with
    | false =>
      have hne : (status != 403) = true := by simp [bne, h1]
      simp [hne]
    | true =>
      have hne : (status != 403) = false := by simp [bne, h1]
      simp only [hne, Bool.true_and, if_false, Bool.false_eq_true]
      cases contentType with
      | none => simp
      | some ct =>
        cases h2 : jsIncludes (jsToLower ct) "text/html" <;> simp [h2]
  · unfold fetchNonOkFailure
    simp [h]
  · unfold curlNon2xxFailure
    simp [h]

/-- Witness for C7 at concrete blocked responses on both backends. -/
theorem botBlock_classification_spec_witness :
    fetchNonOkFailure 403 (some "text/html; charset=utf-8") "x" = blockedErrorMessage ∧
    curlNon2xxFailure 403 "<!DOCTYPE html><head>Just a moment...</head>" =
      blockedErrorMessage :=
  ⟨botBlock_classification_spec.2.1 403 (some "text/html; charset=utf-8") "x" (by decide),
    botBlock_classification_spec.2.2 403 "<!DOCTYPE html><head>Just a moment...</head>"
      (by decide)⟩

/-- C8: `sendOffer` tries the transaction-scoped `offer_requests` endpoint,
then the transaction-scoped `offers` endpoint, then the legacy global
`/api/v2/offers` endpoint, in that fixed order, returning the first success
without requesting later variants; and when all three fail with messages
carrying no access-denied or blocked/captcha/cloudflare signal, the
returned error is the legacy endpoint's. -/
theorem sendOffer_endpoint_precedence :
    (∀ (baseUrl : String) (itemId : Int) (t l : Except String Unit),
      sendOfferModel baseUrl itemId (.ok ()) t l =
        ⟨.ok (), [modernOfferUrl baseUrl itemId]⟩) ∧
    (∀ (baseUrl : String) (itemId : Int) (m1 : String) (l : Except String Unit),
      sendOfferModel baseUrl itemId (.error m1) (.ok ()) l =
        ⟨.ok (), [modernOfferUrl baseUrl itemId, transactionOffersUrl baseUrl itemId]⟩) ∧
    (∀ (baseUrl : String) (itemId : Int) (m1 m2 : String),
      sendOfferModel baseUrl itemId (.error m1) (.error m2) (.ok ()) =
        ⟨.ok (), [modernOfferUrl baseUrl itemId, transactionOffersUrl baseUrl itemId,
          legacyOffersUrl baseUrl]⟩) ∧
    (∀ (baseUrl : String) (itemId : Int) (m1 m2 m3 : String),
      offerLooksMoreSpecific (jsToLower m1) = false →
      offerLooksMoreSpecific (jsToLower m2) = false →
      offerLooksMoreSpecific (jsToLower m3) = false →
      sendOfferModel baseUrl itemId (.error m1) (.error m2) (.error m3) =
        ⟨.error m3, [modernOfferUrl baseUrl itemId, transactionOffersUrl baseUrl itemId,
          legacyOffersUrl baseUrl]⟩) := by
  refine ⟨fun baseUrl itemId t l => rfl, fun baseUrl itemId m1 l => rfl,
    fun baseUrl itemId m1 m2 => rfl, fun baseUrl itemId m1 m2 m3 h1 h2 h3 => ?_⟩
  unfold offerLooksMoreSpecific offerBlockSignal at h1 h2 h3
  rw [Bool.or_eq_false_iff] at h1 h2 h3
  obtain ⟨ha1, hb1⟩ := h1
  obtain ⟨ha2, hb2⟩ := h2
  obtain ⟨ha3, hb3⟩ := h3
  unfold sendOfferModel
  simp [offerLooksMoreSpecific, offerBlockSignal, ha1, hb1, ha2, hb2, ha3, hb3]

/-- Witness for C8: all three endpoints fail with generic messages, the
legacy error is returned. -/
theorem sendOffer_endpoint_precedence_witness :
    sendOfferModel "https://www.vinted.de" 7 (.error "Vinted request failed (500). a")
        (.error "Vinted request failed (500). b") (.error "Vinted request failed (500). c") =
      ⟨.error "Vinted request failed (500). c",
        [modernOfferUrl "https://www.vinted.de" 7,
          transactionOffersUrl "https://www.vinted.de" 7,
          legacyOffersUrl "https://www.vinted.de"]⟩ :=
  sendOffer_endpoint_precedence.2.2.2 "https://www.vinted.de" 7
    "Vinted request failed (500). a" "Vinted request failed (500). b"
    "Vinted request failed (500). c" (by decide) (by decide) (by decide)

/-- C10: for an error-free toggle-favourite payload the interpretation
never fails, and when no probed boolean field is a boolean and the
action/result/status string (if any) carries no add/remove/(un)favourite
keyword, the result is the explicit `liked := false, known := false`
fallback, letting callers distinguish "toggled off" from "state unknown". -/
theorem toggleFavourite_unknown_state_fallback :
    (∀ payload, extractErrorsPayloadMessage payload = none →
      ∃ v, toggleFavouriteModel (.ok payload) = .ok v) ∧
    (∀ payload, extractErrorsPayloadMessage payload = none →
      toggleBooleanProbe payload = none →
      (∀ a, toggleActionCandidate payload = some a →
        (jsIncludes a "add" || jsIncludes a "favourit" || jsIncludes a "favorit") = false ∧
        (jsIncludes a "remove" || jsIncludes a "unfavourit" ||
          jsIncludes a "unfavorit") = false) →
      toggleFavouriteModel (.ok payload) = .ok ⟨false, false⟩) := by
  have hstep : ∀ payload, toggleFavouriteModel (.ok payload) =
      match extractErrorsPayloadMessage payload with
      | some e => .error e
      | none => .ok (interpretToggleFavouritePayload payload) := fun _ => rfl
  constructor
  · intro payload herr
    refine ⟨interpretToggleFavouritePayload payload, ?_⟩
    rw [hstep, herr]
  · intro payload herr hbool hkw
    rw [hstep, herr]
    unfold interpretToggleFavouritePayload
    rw [hbool]
    cases hac : toggleActionCandidate payload with
    | none => rfl
    | some a =>
      obtain ⟨hadd, hrem⟩ := hkw a hac
      by_cases hempty : a.data = []
      · simp [hempty]
      · simp [hempty, hadd, hrem]

/-- Witness for C10 at the empty-object payload. -/
theorem toggleFavourite_unknown_state_fallback_witness :
    toggleFavouriteModel (.ok (Json.obj [])) = .ok ⟨false, false⟩ :=
  toggleFavourite_unknown_state_fallback.2 (Json.obj []) (by decide) (by decide)
    (by
      intro a h
      rw [show toggleActionCandidate (Json.obj []) = none from rfl] at h
      exact Option.noConfusion h)

/-- Updating one key of an insertion-ordered map leaves lookups of every
other key unchanged. -/
theorem alookup_aset_ne {α : Type} (m : List (String × α)) (k k' : String)
    (h : k' ≠ k) (v : α) : alookup (aset m k v) k' = alookup m k' := by
  have hkk : (k == k') = false := by
    rw [beq_eq_false_iff_ne]
    exact fun hk => h hk.symm
  induction m with
  | nil => simp [aset, alookup, List.find?, hkk]
  | cons p rest ih =>
    unfold aset
    cases hpk : (p.fst == k) with
    | true =>
      have hpkeq : p.fst = k := eq_of_beq hpk
      have h2 : (p.fst == k') = false := by
        rw [beq_eq_false_iff_ne, hpkeq]
        exact fun hk => h hk.symm
      unfold alookup
      simp [List.find?, hkk, h2]
    | false =>
      unfold alookup
      simp only [List.find?]
      cases hpk' : (p.fst == k') with
      | true => simp [hpk']
      | false =>
        simp only [hpk']
        exact ih

/-- C9: session-scope isolation — storing cookies or a dynamic header under
one normalized scope leaves every cookie-header and dynamic-header read
under any other normalized scope unchanged, and an unspecified (or
empty-after-trim) scope normalizes to the single global scope. -/
theorem sessionScope_isolation :
    (∀ (jar : ScopeHostStore) (url : String) (setCookieHeaders : List String)
        (s1 : Option String) (url2 : String) (s2 : Option String),
      normalizeSessionScope s1 ≠ normalizeSessionScope s2 →
      getCookieHeaderFromJar (setCookiesInJar jar url setCookieHeaders s1) url2 s2 =
        getCookieHeaderFromJar jar url2 s2) ∧
    (∀ (cache : ScopeHostStore) (url headerName value : String)
        (s1 : Option String) (url2 : String) (s2 : Option String),
      normalizeSessionScope s1 ≠ normalizeSessionScope s2 →
      getDynamicHeadersForUrl (setDynamicHeaderForUrl cache url headerName value s1) url2 s2 =
        getDynamicHeadersForUrl cache url2 s2) ∧
    normalizeSessionScope none = DEFAULT_SESSION_SCOPE ∧
    (∀ s, jsTrim s = "" → normalizeSessionScope (some s) = DEFAULT_SESSION_SCOPE) := by
  refine ⟨fun jar url hs s1 url2 s2 hne => ?_, fun cache url hn hv s1 url2 s2 hne => ?_,
    rfl, fun s htrim => ?_⟩
  · unfold setCookiesInJar
    cases h1 : jsUrlHost url with
    | none => rfl
    | some host =>
      by_cases hempty : hs = []
      · simp [hempty]
      · simp only [if_neg hempty]
        simp only [getCookieHeaderFromJar]
        cases h2 : jsUrlHost url2 with
        | none => rfl
        | some host2 =>
          simp only [h2]
          rw [alookup_aset_ne _ _ _ (fun he => hne he.symm) _]
  · unfold setDynamicHeaderForUrl
    cases h1 : jsUrlHost url with
    | none => rfl
    | some host =>
      simp only [getDynamicHeadersForUrl]
      cases h2 : jsUrlHost url2 with
      | none => rfl
      | some host2 =>
        simp only [h2]
        rw [alookup_aset_ne _ _ _ (fun he => hne he.symm) _]
  · simp [normalizeSessionScope, htrim]

/-- Witness for C9: a cookie stored for user `u1` is invisible to `u2`, and
a blank scope normalizes to the global scope. -/
theorem sessionScope_isolation_witness :
    getCookieHeaderFromJar
        (setCookiesInJar [] "https://www.vinted.de/x" ["anon_id=abc; Path=/"] (some "u1"))
        "https://www.vinted.de/x" (some "u2") =
      getCookieHeaderFromJar [] "https://www.vinted.de/x" (some "u2") ∧
    normalizeSessionScope (some "  ") = DEFAULT_SESSION_SCOPE :=
  ⟨sessionScope_isolation.1 [] "https://www.vinted.de/x" ["anon_id=abc; Path=/"]
      (some "u1") "https://www.vinted.de/x" (some "u2") (by decide),
    sessionScope_isolation.2.2.2 "  " (by decide)⟩

/-- With no fresh cached token the entry section falls through to the
block probe. -/
theorem entryPhase_stale (s : TokenServiceState) (u : String) (now : Int)
    (hcache : ∀ c, s.cache u = some c → ¬ now < c.expiresAtMs - 30000) :
    entryPhase s u now = entryAfterCache s u now := by
  unfold entryPhase
  cases hc : s.cache u with
  | none => rfl
  | some c =>
    show (if now < c.expiresAtMs - 30000 then ((EntryDecision.useCache c), s)
      else entryAfterCache s u now) = entryAfterCache s u now
    rw [if_neg (hcache c hc)]

/-- A fresh cached token short-circuits the entry section. -/
theorem entryPhase_fresh (s : TokenServiceState) (u : String) (now : Int)
    (c : CachedToken) (hc : s.cache u = some c) (hf : now < c.expiresAtMs - 30000) :
    entryPhase s u now = (.useCache c, s) := by
  unfold entryPhase
  rw [hc]
  exact if_pos hf

/-- With no active block the entry section falls through to the reauth
probe. -/
theorem entryAfterCache_noBlock (s : TokenServiceState) (u : String) (now : Int)
    (hb : ∀ b, s.blocked u = some b → ¬ now < b.untilMs) :
    entryAfterCache s u now = entryAfterBlocked s u now := by
  unfold entryAfterCache
  cases hbb : s.blocked u with
  | none => rfl
  | some b =>
    show (if now < b.untilMs then ((EntryDecision.failBlocked), s)
      else entryAfterBlocked s u now) = entryAfterBlocked s u now
    rw [if_neg (hb b hbb)]

/-- An active block fails fast. -/
theorem entryAfterCache_blocked (s : TokenServiceState) (u : String) (now : Int)
    (b : BlockState) (hb : s.blocked u = some b) (hlt : now < b.untilMs) :
    entryAfterCache s u now = (.failBlocked, s) := by
  unfold entryAfterCache
  rw [hb]
  exact if_pos hlt

/-- With no active reauth cooldown the entry section falls through to the
in-flight probe. -/
theorem entryAfterBlocked_noReauth (s : TokenServiceState) (u : String) (now : Int)
    (hr : ∀ r, s.reauthRequired u = some r → ¬ now < r.untilMs) :
    entryAfterBlocked s u now = entryAfterReauth s u := by
  unfold entryAfterBlocked
  cases hrr : s.reauthRequired u with
  | none => rfl
  | some r =>
    show (if now < r.untilMs then ((EntryDecision.failReauth), s)
      else entryAfterReauth s u) = entryAfterReauth s u
    rw [if_neg (hr r hrr)]

/-- An active reauth cooldown fails fast. -/
theorem entryAfterBlocked_reauth (s : TokenServiceState) (u : String) (now : Int)
    (r : ReauthState) (hr : s.reauthRequired u = some r) (hlt : now < r.untilMs) :
    entryAfterBlocked s u now = (.failReauth, s) := by
  unfold entryAfterBlocked
  rw [hr]
  exact if_pos hlt

/-- With no in-flight promise a refresh starts and is installed. -/
theorem entryAfterReauth_start (s : TokenServiceState) (u : String)
    (h : s.inFlight u = false) :
    entryAfterReauth s u =
      (.startRefresh,
        { s with inFlight := fun k' => if k' = u then true else s.inFlight k' }) := by
  unfold entryAfterReauth
  rw [h]
  rfl

/-- An in-flight promise is awaited instead of starting a second refresh. -/
theorem entryAfterReauth_await (s : TokenServiceState) (u : String)
    (h : s.inFlight u = true) : entryAfterReauth s u = (.awaitExisting, s) := by
  unfold entryAfterReauth
  rw [h]
  rfl

/-- Strike counts after folding `bumpBackoff` over failure times, given the
accumulator's strikes are within the cap. -/
theorem strikes_after_fold (ts : List Int) :
    ∀ acc : Option BlockState, ((acc.map (·.strikes)).getD 0) ≤ 6 →
      (((ts.foldl (fun a t => some (bumpBackoff a t)) acc).map (·.strikes)).getD 0) =
        min (((acc.map (·.strikes)).getD 0) + ts.length) 6 := by
  induction ts with
  | nil =>
    intro acc h
    simp
    omega
  | cons t rest ih =>
    intro acc h
    simp only [List.foldl_cons]
    rw [ih (some (bumpBackoff acc t)) (by simp [bumpBackoff])]
    simp [bumpBackoff]
    omega

/-- `bumpBackoff` in terms of the previous strike count. -/
theorem bumpBackoff_eq (prev : Option BlockState) (t : Int) (n : Nat)
    (h : ((prev.map (·.strikes)).getD 0) = n) :
    bumpBackoff prev t =
      ⟨t + ((min (30 * 60000) (30000 * 2 ^ min (n + 1) 6) : Nat) : Int),
        min (n + 1) 6⟩ := by
  unfold bumpBackoff
  rw [h]

/-- C2: after N ≥ 1 consecutive blocked-classified refresh failures (no
successful refresh or clear in between) the block state carries strike
count `min N 6` and blocks until the last failure time plus
`min(30min, 30s * 2^min(N,6))`; a blocked-classified refresh failure
performs exactly the `bumpBackoff` update; and while the block is active,
`getAccessToken` fails fast with the blocked error, with no account load,
decryption or refresh network call and no state change. -/
theorem tokenService_blocked_backoff :
    (∀ (ts : List Int) (t : Int),
      blockedStateAfterFailures (ts ++ [t]) =
        some ⟨t + ((min (30 * 60000) (30000 * 2 ^ min (ts.length + 1) 6) : Nat) : Int),
          min (ts.length + 1) 6⟩) ∧
    (∀ (s : TokenServiceState) (u : String) (now : Int) (env : RefreshEnv)
        (account : VintedAccount) (d msg : String),
      (∀ c, s.cache u = some c → ¬ now < c.expiresAtMs - 30000) →
      (∀ b, s.blocked u = some b → ¬ now < b.untilMs) →
      s.reauthRequired u = none →
      s.inFlight u = false →
      env.account = .ok account →
      isVintedRegion account.region = true →
      env.decrypted = some d →
      env.refresh = .error msg →
      isBlockedError msg = true →
      (getAccessTokenModel u now env s).state.blocked u =
        some (bumpBackoff (s.blocked u) now) ∧
      (getAccessTokenModel u now env s).result = .errMsg msg ∧
      (getAccessTokenModel u now env s).flags.refreshCalled = true) ∧
    (∀ (s : TokenServiceState) (u : String) (now : Int) (env : RefreshEnv) (b : BlockState),
      s.blocked u = some b → now < b.untilMs →
      (∀ c, s.cache u = some c → ¬ now < c.expiresAtMs - 30000) →
      getAccessTokenModel u now env s = ⟨.errMsg blockedErrorMessage, s, noFlags⟩) := by
  refine ⟨fun ts t => ?_, fun s u now env account d msg hcache hblock hreauth hflight
    ha hreg hd hr hblocked => ?_, fun s u now env b hb hlt hcache => ?_⟩
  · unfold blockedStateAfterFailures
    rw [List.foldl_append]
    simp only [List.foldl_cons, List.foldl_nil]
    have hs := strikes_after_fold ts none (by simp)
    simp at hs
    rw [bumpBackoff_eq _ t (min ts.length 6) hs]
    have hmin : min (min ts.length 6 + 1) 6 = min (ts.length + 1) 6 := by omega
    rw [hmin]
  · have hentry : entryPhase s u now =
        (.startRefresh,
          { s with inFlight := fun k' => if k' = u then true else s.inFlight k' }) := by
      rw [entryPhase_stale s u now hcache, entryAfterCache_noBlock s u now hblock,
        entryAfterBlocked_noReauth s u now (by
          intro r hr'
          rw [hreauth] at hr'
          exact Option.noConfusion hr'),
        entryAfterReauth_start s u hflight]
    simp only [getAccessTokenModel, hentry]
    simp only [refreshBody, ha, hreg, hd, hr, hblocked, Bool.not_true, Bool.false_eq_true,
      if_false, ite_false, ite_true]
    refine ⟨?_, by trivial, by trivial⟩
    simp [fset]
  · have hentry : entryPhase s u now = (.failBlocked, s) := by
      rw [entryPhase_stale s u now hcache, entryAfterCache_blocked s u now b hb hlt]
    simp only [getAccessTokenModel, hentry]

/-- Witness for C2: with an active block (until 1000, one strike) at time
0, the call fails fast with the blocked error and unchanged state. -/
theorem tokenService_blocked_backoff_witness :
    getAccessTokenModel "u" 0 ⟨.error "x", none, .error "x"⟩
        ⟨fun _ => none, fun v => if v = "u" then some ⟨1000, 1⟩ else none,
          fun _ => none, fun _ => false⟩ =
      ⟨.errMsg blockedErrorMessage,
        ⟨fun _ => none, fun v => if v = "u" then some ⟨1000, 1⟩ else none,
          fun _ => none, fun _ => false⟩, noFlags⟩ :=
  tokenService_blocked_backoff.2.2
    ⟨fun _ => none, fun v => if v = "u" then some ⟨1000, 1⟩ else none,
      fun _ => none, fun _ => false⟩
    "u" 0 ⟨.error "x", none, .error "x"⟩ ⟨1000, 1⟩ (by simp) (by decide)
    (fun c hc => Option.noConfusion hc)

/-- C3: an invalid-grant refresh failure installs a 30-minute reauth
cooldown, deletes the user's cached token and block state and returns the
"run setup again" error; while the cooldown is active every later call
fails fast with that error — no account load, decryption or refresh call,
no state change — and `clearTokenState` resets all per-user state. -/
theorem tokenService_invalid_grant_cooldown :
    (∀ (s : TokenServiceState) (u : String) (now : Int) (env : RefreshEnv)
        (account : VintedAccount) (d msg : String),
      (∀ c, s.cache u = some c → ¬ now < c.expiresAtMs - 30000) →
      (∀ b, s.blocked u = some b → ¬ now < b.untilMs) →
      s.reauthRequired u = none →
      s.inFlight u = false →
      env.account = .ok account →
      isVintedRegion account.region = true →
      env.decrypted = some d →
      env.refresh = .error msg →
      isBlockedError msg = false →
      isInvalidGrantError msg = true →
      (getAccessTokenModel u now env s).state.reauthRequired u =
        some ⟨now + REAUTH_COOLDOWN_MS⟩ ∧
      (getAccessTokenModel u now env s).state.cache u = none ∧
      (getAccessTokenModel u now env s).state.blocked u = none ∧
      (getAccessTokenModel u now env s).result = .errMsg reauthRequiredMessage) ∧
    (∀ (s : TokenServiceState) (u : String) (now : Int) (env : RefreshEnv) (r : ReauthState),
      s.cache u = none → s.blocked u = none → s.reauthRequired u = some r →
      now < r.untilMs →
      getAccessTokenModel u now env s = ⟨.errMsg reauthRequiredMessage, s, noFlags⟩) ∧
    (∀ (s : TokenServiceState) (u : String),
      (clearTokenStateForUser u s).cache u = none ∧
      (clearTokenStateForUser u s).blocked u = none ∧
      (clearTokenStateForUser u s).reauthRequired u = none ∧
      (clearTokenStateForUser u s).inFlight u = false) := by
  refine ⟨fun s u now env account d msg hcache hblock hreauth hflight ha hreg hd hr
    hnotblocked hinv => ?_, fun s u now env r hc hb hrr hlt => ?_, fun s u => ?_⟩
  · have hentry : entryPhase s u now =
        (.startRefresh,
          { s with inFlight := fun k' => if k' = u then true else s.inFlight k' }) := by
      rw [entryPhase_stale s u now hcache, entryAfterCache_noBlock s u now hblock,
        entryAfterBlocked_noReauth s u now (by
          intro r hr'
          rw [hreauth] at hr'
          exact Option.noConfusion hr'),
        entryAfterReauth_start s u hflight]
    simp only [getAccessTokenModel, hentry]
    simp only [refreshBody, ha, hreg, hd, hr, hnotblocked, hinv, Bool.not_true,
      Bool.false_eq_true, if_false, ite_false, ite_true]
    refine ⟨?_, ?_, ?_, by trivial⟩ <;> simp [fset]
  · have hentry : entryPhase s u now = (.failReauth, s) := by
      rw [entryPhase_stale s u now (by
          intro c hc'
          rw [hc] at hc'
          exact Option.noConfusion hc'),
        entryAfterCache_noBlock s u now (by
          intro b hb'
          rw [hb] at hb'
          exact Option.noConfusion hb'),
        entryAfterBlocked_reauth s u now r hrr hlt]
    simp only [getAccessTokenModel, hentry]
  · simp [clearTokenStateForUser, fset]

/-- Witness for C3: with an active reauth cooldown (until 1000) at time 0,
the call fails fast with the reauth-required error and unchanged state. -/
theorem tokenService_invalid_grant_cooldown_witness :
    getAccessTokenModel "u" 0 ⟨.error "x", none, .error "x"⟩
        ⟨fun _ => none, fun _ => none,
          fun v => if v = "u" then some ⟨1000⟩ else none, fun _ => false⟩ =
      ⟨.errMsg reauthRequiredMessage,
        ⟨fun _ => none, fun _ => none,
          fun v => if v = "u" then some ⟨1000⟩ else none, fun _ => false⟩, noFlags⟩ :=
  tokenService_invalid_grant_cooldown.2.1
    ⟨fun _ => none, fun _ => none,
      fun v => if v = "u" then some ⟨1000⟩ else none, fun _ => false⟩
    "u" 0 ⟨.error "x", none, .error "x"⟩ ⟨1000⟩ rfl rfl (by simp) (by decide)

/-- The entry section either returns a fresh cached token (unchanged state)
or falls through to the block probe. -/
theorem entryPhase_split (s : TokenServiceState) (u : String) (now : Int) :
    (∃ c, entryPhase s u now = (.useCache c, s)) ∨
      entryPhase s u now = entryAfterCache s u now := by
  unfold entryPhase
  cases hc : s.cache u with
  | none => exact Or.inr rfl
  | some c =>
    by_cases hf : now < c.expiresAtMs - 30000
    · exact Or.inl ⟨c, by
        show (if now < c.expiresAtMs - 30000 then ((EntryDecision.useCache c), s)
          else entryAfterCache s u now) = _
        rw [if_pos hf]⟩
    · exact Or.inr (by
        show (if now < c.expiresAtMs - 30000 then ((EntryDecision.useCache c), s)
          else entryAfterCache s u now) = _
        rw [if_neg hf])

/-- The block probe either fails fast (unchanged state) or falls through. -/
theorem entryAfterCache_split (s : TokenServiceState) (u : String) (now : Int) :
    entryAfterCache s u now = (.failBlocked, s) ∨
      entryAfterCache s u now = entryAfterBlocked s u now := by
  unfold entryAfterCache
  cases hb : s.blocked u with
  | none => exact Or.inr rfl
  | some b =>
    by_cases hlt : now < b.untilMs
    · exact Or.inl (by
        show (if now < b.untilMs then ((EntryDecision.failBlocked), s)
          else entryAfterBlocked s u now) = _
        rw [if_pos hlt])
    · exact Or.inr (by
        show (if now < b.untilMs then ((EntryDecision.failBlocked), s)
          else entryAfterBlocked s u now) = _
        rw [if_neg hlt])

/-- The reauth probe either fails fast (unchanged state) or falls through. -/
theorem entryAfterBlocked_split (s : TokenServiceState) (u : String) (now : Int) :
    entryAfterBlocked s u now = (.failReauth, s) ∨
      entryAfterBlocked s u now = entryAfterReauth s u := by
  unfold entryAfterBlocked
  cases hr : s.reauthRequired u with
  | none => exact Or.inr rfl
  | some r =>
    by_cases hlt : now < r.untilMs
    · exact Or.inl (by
        show (if now < r.untilMs then ((EntryDecision.failReauth), s)
          else entryAfterReauth s u) = _
        rw [if_pos hlt])
    · exact Or.inr (by
        show (if now < r.untilMs then ((EntryDecision.failReauth), s)
          else entryAfterReauth s u) = _
        rw [if_neg hlt])

/-- With a promise already in flight for the user, the entry section never
starts a second refresh. -/
theorem entryPhase_no_start_of_inFlight (s : TokenServiceState) (u : String) (now : Int)
    (h : s.inFlight u = true) : (entryPhase s u now).1 ≠ .startRefresh := by
  rcases entryPhase_split s u now with ⟨c, hc⟩ | h1
  · rw [hc]
    simp
  · rw [h1]
    rcases entryAfterCache_split s u now with h2 | h2
    · rw [h2]
      simp
    · rw [h2]
      rcases entryAfterBlocked_split s u now with h3 | h3
      · rw [h3]
        simp
      · rw [h3, entryAfterReauth_await s u h]
        simp

/-- When the entry section starts a refresh, the in-flight promise for the
user is installed before the function suspends. -/
theorem entryPhase_start_inFlight (s : TokenServiceState) (u : String) (now : Int)
    (h : (entryPhase s u now).1 = .startRefresh) :
    (entryPhase s u now).2.inFlight u = true := by
  rcases entryPhase_split s u now with ⟨c, hc⟩ | h1
  · rw [hc] at h
    exact absurd h (by simp)
  · rw [h1] at h ⊢
    rcases entryAfterCache_split s u now with h2 | h2
    · rw [h2] at h
      exact absurd h (by simp)
    · rw [h2] at h ⊢
      rcases entryAfterBlocked_split s u now with h3 | h3
      · rw [h3] at h
        exact absurd h (by simp)
      · rw [h3] at h ⊢
        unfold entryAfterReauth at h ⊢
        cases hif : s.inFlight u with
        | true =>
          rw [hif] at h
          exact absurd h (by simp)
        | false =>
          simp

/-- C4: a cached token more than 30s from expiry is returned immediately
with no effect and no state change; with a refresh already in flight a
caller awaits it and performs no refresh call of its own; and across two
entries with no completion in between, at most one refresh starts. -/
theorem tokenService_cache_single_flight :
    (∀ (s : TokenServiceState) (u : String) (now : Int) (env : RefreshEnv)
        (c : CachedToken),
      s.cache u = some c → now < c.expiresAtMs - 30000 →
      getAccessTokenModel u now env s = ⟨.ok c, s, noFlags⟩) ∧
    (∀ (s : TokenServiceState) (u : String) (now : Int) (env : RefreshEnv),
      s.inFlight u = true →
      (getAccessTokenModel u now env s).flags.refreshCalled = false ∧
      (entryPhase s u now).1 ≠ .startRefresh) ∧
    (∀ (s : TokenServiceState) (u : String) (n1 n2 : Int),
      ¬((entryPhase s u n1).1 = .startRefresh ∧
        (entryPhase (entryPhase s u n1).2 u n2).1 = .startRefresh)) := by
  refine ⟨fun s u now env c hc hf => ?_, fun s u now env h => ?_, fun s u n1 n2 => ?_⟩
  · simp only [getAccessTokenModel, entryPhase_fresh s u now c hc hf]
  · refine ⟨?_, entryPhase_no_start_of_inFlight s u now h⟩
    rcases entryPhase_split s u now with ⟨c, hc⟩ | h1
    · simp [getAccessTokenModel, hc, noFlags]
    · rcases entryAfterCache_split s u now with h2 | h2
      · simp [getAccessTokenModel, h1.trans h2, noFlags]
      · rcases entryAfterBlocked_split s u now with h3 | h3
        · simp [getAccessTokenModel, h1.trans (h2.trans h3), noFlags]
        · simp [getAccessTokenModel,
            h1.trans (h2.trans (h3.trans (entryAfterReauth_await s u h))), noFlags]
  · rintro ⟨h1, h2⟩
    exact entryPhase_no_start_of_inFlight _ u n2 (entryPhase_start_inFlight s u n1 h1) h2

/-- Witness for C4: a fresh cached token (expiry 100000, time 0) is
returned unchanged with no effects. -/
theorem tokenService_cache_single_flight_witness :
    getAccessTokenModel "u" 0 ⟨.error "x", none, .error "x"⟩
        ⟨fun v => if v = "u" then some ⟨"a", "r", 100000, "de"⟩ else none,
          fun _ => none, fun _ => none, fun _ => false⟩ =
      ⟨.ok ⟨"a", "r", 100000, "de"⟩,
        ⟨fun v => if v = "u" then some ⟨"a", "r", 100000, "de"⟩ else none,
          fun _ => none, fun _ => none, fun _ => false⟩, noFlags⟩ :=
  tokenService_cache_single_flight.1
    ⟨fun v => if v = "u" then some ⟨"a", "r", 100000, "de"⟩ else none,
      fun _ => none, fun _ => none, fun _ => false⟩
    "u" 0 ⟨.error "x", none, .error "x"⟩ ⟨"a", "r", 100000, "de"⟩ (by simp) (by decide)
